import Mathlib

/-!
Verification development for the address-autocomplete widget
(`src/src/components/Autocomplete.js`, the locality-biased "India" variant,
and `src/unnamed/part_000`, the global variant).  The search-and-rank
pipeline — debounce, query gating, normalization, label building, ranking,
and the orchestration state machine — is shallowly embedded below; JavaScript
strings are Lean `String`s, JavaScript numbers are `ℚ` with `Option ℚ`
standing for possibly-non-finite results (`none` models `NaN`/`Infinity`),
and optional provider fields are `Option String`.
-/

set_option maxRecDepth 4000

/-- Truthiness of an optional JS string value: a present, non-empty string.
`none` models `undefined`/a missing key. -/
def truthy : Option String → Bool
  | some s => decide (s ≠ "")
  | none => false

/-- JS `a || b` on optional string values: yields `a` when truthy, else `b`. -/
def jsOr (a b : Option String) : Option String := if truthy a then a else b

/-- JS `a || d` where the fallback `d` is a string literal: the stored value is
always a plain string. -/
def jsOrS (a : Option String) (d : String) : String :=
  if truthy a then a.getD "" else d

/-- Numeric value of a list of decimal digit characters. -/
def digitsVal (ds : List Char) : Nat := ds.foldl (fun a c => a * 10 + (c.toNat - 48)) 0

/-- Fractional value contributed by the digits after the decimal point. -/
def fracVal (ds : List Char) : ℚ := (digitsVal ds : ℚ) / ((10 : ℚ) ^ ds.length)

/-- Signed exponent digits (after `e`/`E`): `none` when no digit follows, in
which case JS `parseFloat` stops before the `e`. -/
def expSigned : List Char → Option Int
  | '-' :: rest =>
    if (rest.takeWhile Char.isDigit).isEmpty then none
    else some (-(digitsVal (rest.takeWhile Char.isDigit) : Int))
  | '+' :: rest =>
    if (rest.takeWhile Char.isDigit).isEmpty then none
    else some ((digitsVal (rest.takeWhile Char.isDigit) : Int))
  | cs =>
    if (cs.takeWhile Char.isDigit).isEmpty then none
    else some ((digitsVal (cs.takeWhile Char.isDigit) : Int))

/-- Exponent part of a decimal literal, if one starts here. -/
def expPart : List Char → Option Int
  | 'e' :: rest => expSigned rest
  | 'E' :: rest => expSigned rest
  | _ => none

/-- Model of JS `parseFloat` restricted to finite outcomes: parses the longest
decimal-literal prefix (optional sign, digits, fraction, exponent) after
leading whitespace.  `none` models a non-finite result: `NaN` when no digits
can be read, and an explicit `Infinity` literal. -/
def jsParseFloat (s : String) : Option ℚ :=
  let cs0 := s.data.dropWhile Char.isWhitespace
  let neg : Bool := cs0.head? = some '-'
  let cs1 := if cs0.head? = some '-' || cs0.head? = some '+' then cs0.tail else cs0
  if List.isPrefixOf "Infinity".data cs1 then none
  else
    let ip := cs1.takeWhile Char.isDigit
    let cs2 := cs1.dropWhile Char.isDigit
    let fr : List Char :=
      match cs2 with
      | '.' :: rest => rest.takeWhile Char.isDigit
      | _ => []
    let cs3 : List Char :=
      match cs2 with
      | '.' :: rest => rest.dropWhile Char.isDigit
      | _ => cs2
    if ip.isEmpty && fr.isEmpty then none
    else
      let mant : ℚ := (digitsVal ip : ℚ) + fracVal fr
      let signed : ℚ := if neg then -mant else mant
      match expPart cs3 with
      | none => some signed
      | some e =>
        if 0 ≤ e then some (signed * (10 : ℚ) ^ e.toNat)
        else some (signed / (10 : ℚ) ^ (-e).toNat)

/-- Character-list test: `sub` occurs at the start of `l`. -/
def startsWithChars (sub : List Char) : List Char → Bool
  | [] => sub.isEmpty
  | c :: cs =>
    match sub with
    | [] => true
    | d :: ds => d == c && startsWithChars ds cs

/-- Character-list test: `sub` occurs somewhere inside `l`. -/
def inclChars (sub : List Char) : List Char → Bool
  | [] => sub.isEmpty
  | c :: cs => startsWithChars sub (c :: cs) || inclChars sub cs

/-- Model of JS `String.prototype.includes`: `strIncludes hay needle` is true
when `needle` occurs as a contiguous substring of `hay`. -/
def strIncludes (hay needle : String) : Bool := inclChars needle.data hay.data

/-- Model of JS `String.prototype.toLowerCase` (ASCII letters, the case the
widget's city names and queries exercise). -/
def jsLower (s : String) : String := String.mk (s.data.map Char.toLower)

/-- Model of JS `String.prototype.trim`: strip leading and trailing
whitespace. -/
def jsTrim (s : String) : String :=
  String.mk ((s.data.dropWhile Char.isWhitespace).reverse.dropWhile Char.isWhitespace).reverse

/-- The provider's unstructured `address` sub-record (`item.address` in the
Nominatim response), every field optional. -/
structure RawAddress where
  house_number : Option String
  road : Option String
  neighbourhood : Option String
  suburb : Option String
  city_district : Option String
  city : Option String
  town : Option String
  village : Option String
  state_district : Option String
  state : Option String
  country : Option String
  country_code : Option String
  postcode : Option String
deriving DecidableEq

/-- A `RawAddress` with every field absent, the value of `item.address || {}`
when the provider omits the record. -/
def emptyRawAddress : RawAddress :=
  ⟨none, none, none, none, none, none, none, none, none, none, none, none, none⟩

/-- One raw provider candidate (`item` in the response array).  `lat`/`lon` are
the provider's string fields; `importance` is `none` when absent (or `NaN`);
`place_id` is the numeric provider identifier. -/
structure RawCandidate where
  place_id : Option Nat
  display_name : String
  lat : String
  lon : String
  type : Option String
  cls : Option String
  importance : Option ℚ
  address : Option RawAddress
deriving DecidableEq

/-- The structured `address` field of a normalized candidate, as assembled by
`searchAddresses` (the field named `class` in the source is `cls` here;
`city` is already collapsed from city/town/village). -/
structure LocationAddress where
  house_number : Option String
  road : Option String
  neighbourhood : Option String
  suburb : Option String
  city_district : Option String
  city : Option String
  state_district : Option String
  state : Option String
  country : Option String
  country_code : Option String
  postcode : Option String
deriving DecidableEq

/-- A normalized candidate (the object literal returned from `data.map` in
`searchAddresses`).  `lat`/`lon` hold the `parseFloat` results, `none`
modelling a non-finite number. -/
structure Location where
  id : String
  display_name : String
  clean_display_name : String
  lat : Option ℚ
  lon : Option ℚ
  type : String
  cls : String
  importance : ℚ
  address : LocationAddress
deriving DecidableEq

/-- The `address` sub-record the mapping works with: `item.address || {}`. -/
def addrOf (item : RawCandidate) : RawAddress := item.address.getD emptyRawAddress

/-- A part of the composite label: the field's string when truthy, else
nothing (models `if (f) parts.push(f)`). -/
def optPart (o : Option String) : List String :=
  match o with
  | some s => if s = "" then [] else [s]
  | none => []

/-- The city/town/village chain `address.city || address.town ||
address.village` exactly as the source computes it. -/
def chosenCityJS (a : RawAddress) : Option String := jsOr (jsOr a.city a.town) a.village

/-- The state-district part with the source's deduplication guard
`address.state_district && address.state_district !== (address.city ||
address.town)` (note: the guard compares against city-or-town, not against
the chosen city when that came from `village`). -/
def sdPart (a : RawAddress) : List String :=
  match a.state_district with
  | some s => if s ≠ "" ∧ jsOr a.city a.town ≠ some s then [s] else []
  | none => []

/-- Label parts of the global variant (`src/unnamed/part_000`, lines 71-95):
house number, road, neighbourhood, suburb, city district, city chain,
guarded state district, state, country, postcode. -/
def labelPartsG (a : RawAddress) : List String :=
  optPart a.house_number ++ optPart a.road ++ optPart a.neighbourhood ++
    optPart a.suburb ++ optPart a.city_district ++ optPart (chosenCityJS a) ++
    sdPart a ++ optPart a.state ++ optPart a.country ++ optPart a.postcode

/-- The postcode part of the India variant, rendered as `PIN: <postcode>`. -/
def pinPart (a : RawAddress) : List String :=
  match a.postcode with
  | some s => if s = "" then [] else ["PIN: " ++ s]
  | none => []

/-- Label parts of the India variant (`src/src/components/Autocomplete.js`,
lines 72-84): same order as the global variant but with no country part and
the postcode prefixed by `PIN: `. -/
def labelPartsIN (a : RawAddress) : List String :=
  optPart a.house_number ++ optPart a.road ++ optPart a.neighbourhood ++
    optPart a.suburb ++ optPart a.city_district ++ optPart (chosenCityJS a) ++
    sdPart a ++ optPart a.state ++ pinPart a

/-- `cleanDisplayName` of the global variant: joined parts, or the raw
`display_name` when no part was collected. -/
def buildLabelG (a : RawAddress) (raw : String) : String :=
  if 0 < (labelPartsG a).length then String.intercalate ", " (labelPartsG a) else raw

/-- `cleanDisplayName` of the India variant. -/
def buildLabelIN (a : RawAddress) (raw : String) : String :=
  if 0 < (labelPartsIN a).length then String.intercalate ", " (labelPartsIN a) else raw

/-- The `id` field: `item.place_id || 'location_' + index` (a numeric
`place_id` of `0` is falsy). -/
def idOf (item : RawCandidate) (index : Nat) : String :=
  match item.place_id with
  | some n => if n ≠ 0 then toString n else "location_" ++ toString index
  | none => "location_" ++ toString index

/-- Normalization of one raw candidate in the India variant
(`Autocomplete.js` lines 88-109): note `country: address.country || 'India'`
and the omitted `country_code` key (modelled `none`). -/
def formatIN (item : RawCandidate) (index : Nat) : Location :=
  let a := addrOf item
  { id := idOf item index
    display_name := item.display_name
    clean_display_name := buildLabelIN a item.display_name
    lat := jsParseFloat item.lat
    lon := jsParseFloat item.lon
    type := jsOrS item.type "location"
    cls := jsOrS item.cls ""
    importance := item.importance.getD 0
    address :=
      { house_number := a.house_number
        road := a.road
        neighbourhood := a.neighbourhood
        suburb := a.suburb
        city_district := a.city_district
        city := chosenCityJS a
        state_district := a.state_district
        state := a.state
        country := if truthy a.country then a.country else some "India"
        country_code := none
        postcode := a.postcode } }

/-- Normalization of one raw candidate in the global variant (`part_000`
lines 100-122): the country passes through unchanged and `country_code` is
kept. -/
def formatG (item : RawCandidate) (index : Nat) : Location :=
  let a := addrOf item
  { id := idOf item index
    display_name := item.display_name
    clean_display_name := buildLabelG a item.display_name
    lat := jsParseFloat item.lat
    lon := jsParseFloat item.lon
    type := jsOrS item.type "location"
    cls := jsOrS item.cls ""
    importance := item.importance.getD 0
    address :=
      { house_number := a.house_number
        road := a.road
        neighbourhood := a.neighbourhood
        suburb := a.suburb
        city_district := a.city_district
        city := chosenCityJS a
        state_district := a.state_district
        state := a.state
        country := a.country
        country_code := a.country_code
        postcode := a.postcode } }

/-- `data.map((item, index) => ...)` for the India variant: every raw
candidate yields a `Location`; nothing is filtered. -/
def formatAllIN (data : List RawCandidate) : List Location :=
  data.enum.map (fun p => formatIN p.2 p.1)

/-- `data.map((item, index) => ...)` for the global variant. -/
def formatAllG (data : List RawCandidate) : List Location :=
  data.enum.map (fun p => formatG p.2 p.1)

/-- Placement step of the engine's stable sort: the next element `x` (taken
left to right) is inserted immediately before the first element `y` of the
already-sorted prefix with `lt x y` (i.e. `comparefn(x, y) < 0`).  This is
the binary-insertion placement V8 uses for arrays shorter than 22 elements —
the regime here, since the provider call caps results at 10. -/
def insJS (lt : α → α → Bool) (x : α) : List α → List α
  | [] => [x]
  | y :: ys => if lt x y then x :: y :: ys else y :: insJS lt x ys

/-- Model of `Array.prototype.sort(comparefn)` (ES2019 stable sort) for short
arrays: fold the input left to right, placing each element by `insJS`.  For a
consistent comparator this agrees with every stable sort; for the
inconsistent locality comparator below it reproduces the engine's
binary-insertion behaviour. -/
def jsSort (lt : α → α → Bool) (l : List α) : List α :=
  l.foldl (fun acc x => insJS lt x acc) []

/-- `aCity.includes(queryLower)` of the locality comparator:
`(a.address.city || '').toLowerCase()` contains the lower-cased query. -/
def isMatch (q : String) (a : Location) : Bool :=
  strIncludes (jsLower (a.address.city.getD "")) (jsLower q)

/-- The global comparator `(b.importance || 0) - (a.importance || 0)`
(importance is already defaulted to `0` during normalization, so the inner
`|| 0` is the identity here). -/
def cmpImportance (a b : Location) : ℚ := b.importance - a.importance

/-- The locality comparator of the India variant (`Autocomplete.js` lines
112-124): returns `-1` as soon as `a`'s city matches, `1` when only `b`'s
matches, else the importance difference.  It is not a consistent comparison
function: for two matching candidates it answers `-1` in both argument
orders. -/
def cmpLocality (q : String) (a b : Location) : ℚ :=
  if isMatch q a then -1 else if isMatch q b then 1 else cmpImportance a b

/-- `comparefn(a, b) < 0` for the locality comparator. -/
def ltLoc (q : String) (a b : Location) : Bool := decide (cmpLocality q a b < 0)

/-- `comparefn(a, b) < 0` for the importance comparator. -/
def ltImp (a b : Location) : Bool := decide (cmpImportance a b < 0)

/-- The India variant's ranking: sort by the locality comparator. -/
def rankLocality (q : String) (l : List Location) : List Location := jsSort (ltLoc q) l

/-- The global variant's ranking: sort by descending importance. -/
def rankGlobal (l : List Location) : List Location := jsSort ltImp l

/-- The widget's React state: `query`, `suggestions` (the stored candidate
list), `loading`, `selectedLocation`, `showSuggestions`, `error` (the empty
string models a cleared error). -/
structure WidgetState where
  query : String
  suggestions : List Location
  loading : Bool
  selectedLocation : Option Location
  showSuggestions : Bool
  error : String
deriving DecidableEq

/-- Outcome of one provider fetch: a parsed candidate array, a non-2xx HTTP
status (the thrown `HTTP error`), or a network/parse exception. -/
inductive FetchOutcome where
  | ok (data : List RawCandidate)
  | httpError (status : Nat)
  | networkError
deriving DecidableEq

/-- Error message set on a zero-result response. -/
def noLocMsg : String := "No locations found. Try a different search term."

/-- Error message set by the catch block for both HTTP and network failures. -/
def fetchFailMsg : String := "Failed to fetch locations. Please check your internet connection."

/-- The synchronous head of `searchAddresses` up to the `fetch` call: for a
query shorter than 2 characters it clears the suggestions and returns without
dispatching (the `Bool` is whether a provider request was issued); otherwise
it sets `loading` and clears `error` and dispatches. -/
def searchStart (q : String) (w : WidgetState) : WidgetState × Bool :=
  if q.length < 2 then ({ w with suggestions := [], showSuggestions := false }, false)
  else ({ w with loading := true, error := "" }, true)

/-- The continuation of `searchAddresses` (India variant) once the fetch for
query `q` settles, including the `finally` that clears `loading`.  A
non-empty candidate array is normalized, sorted with the locality comparator
and stored wholesale; an empty array or a failure stores the corresponding
message. -/
def searchComplete (q : String) (w : WidgetState) : FetchOutcome → WidgetState
  | .ok data =>
    if 0 < data.length then
      { w with suggestions := rankLocality q (formatAllIN data),
               showSuggestions := true, loading := false }
    else
      { w with suggestions := [], showSuggestions := false,
               error := noLocMsg, loading := false }
  | .httpError _ =>
    { w with error := fetchFailMsg, suggestions := [], showSuggestions := false,
             loading := false }
  | .networkError =>
    { w with error := fetchFailMsg, suggestions := [], showSuggestions := false,
             loading := false }

/-- Whole-system state: the widget state, the single debounce slot (`pending`
holds the argument of the armed timer, `none` when no timer is armed — the
`let timeout` closure of `debounce`), the in-flight fetches as
(request id, query) pairs, and a fresh-id counter.  The code attaches no
sequence token to a request; the id here is bookkeeping of the model only and
is never consulted when a response commits. -/
structure SysState where
  widget : WidgetState
  pending : Option String
  inflight : List (Nat × String)
  nextId : Nat
deriving DecidableEq

/-- Events of the cooperative event loop: a text-input change, the explicit
clear button, a click on suggestion `i`, expiry of the pending debounce
timer, and arrival of the response to in-flight request `id`. -/
inductive Event where
  | input (value : String)
  | clear
  | select (i : Nat)
  | timerFire
  | respond (id : Nat) (outcome : FetchOutcome)

/-- The `useEffect([query])` body, run after the query value changed to `v`:
a non-blank trimmed query re-arms the debounce timer with the trimmed text
(replacing any pending timer, as `debounce` does via `clearTimeout`); a blank
one clears suggestions, dropdown and error (but cancels no timer). -/
def queryEffect (v : String) (s : SysState) (w1 : WidgetState) : SysState :=
  if jsTrim v ≠ "" then { s with widget := w1, pending := some (jsTrim v) }
  else { s with widget := { w1 with suggestions := [], showSuggestions := false, error := "" } }

/-- One step of the event loop.  Each case is the corresponding handler from
the source followed by the `useEffect([query])` reaction when the handler
changed `query` (React bails out of the re-render when the value is
unchanged). -/
def step (s : SysState) : Event → SysState
  | .input v =>
    let w := s.widget
    let w1 :=
      if v = "" then
        { w with query := v, selectedLocation := none, suggestions := [],
                 showSuggestions := false, error := "" }
      else { w with query := v }
    if v ≠ w.query then queryEffect v s w1 else { s with widget := w1 }
  | .clear =>
    { s with widget :=
      { s.widget with query := "", selectedLocation := none,
                      suggestions := [], showSuggestions := false, error := "" } }
  | .select i =>
    match s.widget.suggestions[i]? with
    | none => s
    | some c =>
      let w := s.widget
      let lbl := c.clean_display_name
      let w1 := { w with query := lbl, selectedLocation := some c,
                         showSuggestions := false, error := "" }
      if lbl ≠ w.query then queryEffect lbl s w1 else { s with widget := w1 }
  | .timerFire =>
    match s.pending with
    | none => s
    | some q =>
      let pr := searchStart q s.widget
      { s with widget := pr.1, pending := none,
               inflight := if pr.2 then s.inflight ++ [(s.nextId, q)] else s.inflight,
               nextId := if pr.2 then s.nextId + 1 else s.nextId }
  | .respond id outcome =>
    match s.inflight.lookup id with
    | none => s
    | some q =>
      { s with inflight := s.inflight.filter (fun p => p.fst != id),
               widget := searchComplete q s.widget outcome }

/-- Run a sequence of events from a state. -/
def runEvents (s : SysState) (es : List Event) : SysState := es.foldl step s

/-- Widget state at mount. -/
def initWidget : WidgetState :=
  { query := "", suggestions := [], loading := false, selectedLocation := none,
    showSuggestions := false, error := "" }

/-- System state at mount. -/
def initState : SysState :=
  { widget := initWidget, pending := none, inflight := [], nextId := 0 }

/-- Timeline model of the `debounce` wrapper (lines 19-29 of both variants):
given the timestamped calls to the debounced function (times nondecreasing),
return the invocations of the wrapped operation.  A call at time `t` arms a
timer for `t + wait` after `clearTimeout` on the previous one, so it fires
with its arguments iff no further call occurs before `t + wait`. -/
def debounceFires (wait : Nat) : List (Nat × α) → List (Nat × α)
  | [] => []
  | (t, a) :: rest =>
    match rest with
    | [] => [(t + wait, a)]
    | (u, b) :: more =>
      if u < t + wait then debounceFires wait ((u, b) :: more)
      else (t + wait, a) :: debounceFires wait ((u, b) :: more)

/-- Modelled from the spec: the "already-chosen city value" of the label rule
in the Address Normalizer contract — the first present-and-non-empty of
city, town, village. -/
def specChosenCity (a : RawAddress) : Option String :=
  if truthy a.city then a.city
  else if truthy a.town then a.town
  else if truthy a.village then a.village
  else none

/-- Modelled from the spec: the state-district part, appended only when
present, non-empty and different from the already-chosen city value. -/
def specSdPart (a : RawAddress) : List String :=
  match a.state_district with
  | some s => if s ≠ "" ∧ specChosenCity a ≠ some s then [s] else []
  | none => []

/-- Modelled from the spec: the label parts in the contracted fixed order —
house number, road, neighbourhood, suburb, city district, city (first of
city/town/village), deduplicated state district, state, country, postal
code, each only if present and non-empty. -/
def specLabelParts (a : RawAddress) : List String :=
  optPart a.house_number ++ optPart a.road ++ optPart a.neighbourhood ++
    optPart a.suburb ++ optPart a.city_district ++ optPart (specChosenCity a) ++
    specSdPart a ++ optPart a.state ++ optPart a.country ++ optPart a.postcode

/-- Modelled from the spec: the composite label — the parts joined with a
comma-space, or the raw display string when no part was collected. -/
def specLabel (a : RawAddress) (raw : String) : String :=
  if 0 < (specLabelParts a).length then String.intercalate ", " (specLabelParts a) else raw

/-- A raw candidate with no structured address, finite coordinates and
importance 1. -/
def rawA : RawCandidate :=
  { place_id := some 11, display_name := "Alpha Street", lat := "1", lon := "2",
    type := some "road", cls := some "highway", importance := some 1,
    address := none }

/-- A second raw candidate, distinguishable from `rawA`. -/
def rawB : RawCandidate :=
  { place_id := some 22, display_name := "Beta Bridge", lat := "3", lon := "4",
    type := some "bridge", cls := some "man_made", importance := some 2,
    address := none }

/-- A raw candidate whose latitude string does not parse to a finite number
(`parseFloat("abc")` is `NaN`). -/
def badRaw : RawCandidate :=
  { place_id := none, display_name := "Nowhere", lat := "abc", lon := "2.5",
    type := none, cls := none, importance := none, address := none }

/-- Race scenario: request 0 for query `aa` is dispatched before request 1
for `bbb`, but request 1's response arrives first and request 0's last. -/
def evsC1 : List Event :=
  [.input "aa", .timerFire, .input "bbb", .timerFire,
   .respond 1 (.ok [rawB]), .respond 0 (.ok [rawA])]

/-- A state with both requests of the race scenario in flight. -/
def raceState : SysState :=
  { widget := initWidget, pending := none, inflight := [(0, "aa"), (1, "bbb")], nextId := 2 }

/-- Removing the entry of one request id from the in-flight list does not
change the lookup of a different id. -/
theorem lookup_filter_ne (id1 id2 : Nat) (l : List (Nat × String)) (h : id1 ≠ id2) :
    (l.filter (fun p => p.fst != id2)).lookup id1 = l.lookup id1 := by
  induction l with
  | nil => rfl
  | cons p rest ih =>
    obtain ⟨k, v⟩ := p
    by_cases hk : k = id2
    · have hne : (id1 == id2) = false := beq_eq_false_iff_ne.mpr h
      simp [List.filter_cons, List.lookup, hk, hne, ih]
    · cases hbeq : (id1 == k) with
      | true => simp [List.filter_cons, List.lookup, hk, hbeq]
      | false => simp [List.filter_cons, List.lookup, hk, hbeq, ih]

/-- Whenever a response with a non-empty candidate array arrives for any
still-recorded request, it overwrites the stored suggestions with its own
ranked results — regardless of any newer request. -/
theorem respond_ok_wins (s : SysState) (id : Nat) (q : String) (data : List RawCandidate)
    (hl : s.inflight.lookup id = some q) (hd : 0 < data.length) :
    (step s (.respond id (.ok data))).widget.suggestions = rankLocality q (formatAllIN data) := by
  simp [step, hl, searchComplete, hd]

/-- Claim C1, counterexample: in the race run `evsC1`, request 0 (`aa`) is
dispatched before request 1 (`bbb`) but resolves after it, and the final
stored candidates are request 0's result, not request 1's — the claimed
sequence-token guard does not exist. -/
theorem C1_counterexample :
    (runEvents initState evsC1).widget.suggestions = rankLocality "aa" (formatAllIN [rawA]) ∧
    rankLocality "aa" (formatAllIN [rawA]) ≠ rankLocality "bbb" (formatAllIN [rawB]) :=
  ⟨rfl, by decide⟩

/-- Claim C1, amended: the orchestration attaches no sequence token and never
discards a response; each arriving non-empty response overwrites the stored
candidates, so when request A's response arrives after request B's the final
candidates are A's result. -/
theorem C1_last_arrival_wins (s : SysState) (idA idB : Nat) (qA qB : String)
    (dataA dataB : List RawCandidate) (hne : idA ≠ idB)
    (hA : s.inflight.lookup idA = some qA) (hB : s.inflight.lookup idB = some qB)
    (hdA : 0 < dataA.length) :
    (runEvents s [.respond idB (.ok dataB), .respond idA (.ok dataA)]).widget.suggestions
      = rankLocality qA (formatAllIN dataA) := by
  have h1 : (step s (.respond idB (.ok dataB))).inflight.lookup idA = some qA := by
    simp only [step, hB]
    rw [lookup_filter_ne idA idB s.inflight hne]
    exact hA
  have h2 := respond_ok_wins (step s (.respond idB (.ok dataB))) idA qA dataA h1 hdA
  simpa [runEvents] using h2

/-- Claim C1, witness for the amended theorem at the concrete race state. -/
theorem C1_witness :
    raceState.inflight.lookup 0 = some "aa" ∧ raceState.inflight.lookup 1 = some "bbb" ∧
    (runEvents raceState [.respond 1 (.ok [rawB]), .respond 0 (.ok [rawA])]).widget.suggestions
      = rankLocality "aa" (formatAllIN [rawA]) :=
  ⟨rfl, rfl, C1_last_arrival_wins raceState 0 1 "aa" "bbb" [rawA] [rawB] (by decide) rfl rfl (by decide)⟩

/-- Run delivering a response whose single candidate has a non-finite
latitude. -/
def evsC2 : List Event := [.input "xy", .timerFire, .respond 0 (.ok [badRaw])]

/-- Claim C2, counterexample: a successful response with N = 1 raw candidates
of which K = 1 has a non-parsing latitude still stores 1 candidate (the claim
demands N − K = 0), and the stored candidate has a non-finite latitude. -/
theorem C2_counterexample :
    (runEvents initState evsC2).widget.suggestions.length = 1 ∧
    ((runEvents initState evsC2).widget.suggestions.all
      (fun l => l.lat.isSome && l.lon.isSome)) = false :=
  ⟨rfl, rfl⟩

/-- Claim C2, amended: normalization maps every raw candidate to a `Location`
— nothing is filtered, so the canonical sequence always has exactly N
elements, and a stored `Location` can carry non-finite coordinates. -/
theorem C2_length_preserved (data : List RawCandidate) :
    (formatAllIN data).length = data.length ∧ (formatAllG data).length = data.length := by
  simp [formatAllIN, formatAllG]

/-- Run reaching a populated state and selecting its only suggestion: the
query change re-arms the debounce timer and the next timer expiry dispatches
a fresh provider request for the label text. -/
def evsC6 : List Event :=
  [.input "aa", .timerFire, .respond 0 (.ok [rawA]), .select 0, .timerFire]

/-- Claim C6, counterexample: after selecting the candidate, a new search for
its label `Alpha Street` is dispatched by the following timer expiry —
selection is not terminal for the query cycle. -/
theorem C6_counterexample :
    (runEvents initState evsC6).widget.selectedLocation = some (formatIN rawA 0) ∧
    (runEvents initState evsC6).widget.query = "Alpha Street" ∧
    (runEvents initState evsC6).inflight = [(1, "Alpha Street")] :=
  ⟨rfl, rfl, rfl⟩

/-- Claim C6, amended: selecting candidate `c` sets `selected` to exactly
`c`, replaces the query with `c`'s label, hides the dropdown, leaves the
candidate list untouched — and, because the query changed, re-arms the
debounce timer with the label, scheduling a new search. -/
theorem C6_select_schedules_search (s : SysState) (i : Nat) (c : Location)
    (hc : s.widget.suggestions[i]? = some c)
    (hne : c.clean_display_name ≠ s.widget.query)
    (ht : jsTrim c.clean_display_name ≠ "") :
    step s (.select i) =
      { s with
        widget :=
          { s.widget with query := c.clean_display_name, selectedLocation := some c,
                          showSuggestions := false, error := "" },
        pending := some (jsTrim c.clean_display_name) } := by
  simp [step, hc, queryEffect, hne, ht]

/-- A populated state holding the normalized `rawA` as its only suggestion. -/
def popState : SysState :=
  { widget :=
      { query := "aa", suggestions := [formatIN rawA 0], loading := false,
        selectedLocation := none, showSuggestions := true, error := "" },
    pending := none, inflight := [], nextId := 1 }

/-- Claim C6, witness at the populated state. -/
theorem C6_witness :
    popState.widget.suggestions[0]? = some (formatIN rawA 0) ∧
    (step popState (.select 0)).widget.selectedLocation = some (formatIN rawA 0) ∧
    (step popState (.select 0)).pending = some "Alpha Street" := by
  have h := C6_select_schedules_search popState 0 (formatIN rawA 0) rfl (by decide) (by decide)
  refine ⟨rfl, ?_, ?_⟩
  · rw [h]
  · rw [h]
    rfl

/-- Run reaching a zero-result error state and then shortening the query to a
single character: a search fires, returns empty, then the short query is
processed. -/
def evsC7 : List Event :=
  [.input "ab", .timerFire, .respond 0 (.ok []), .input "a", .timerFire]

/-- Claim C7, counterexample: after the short-query search for `a`, no new
provider request was issued (`nextId` still 1), but the state has not
returned to Idle — the query is the non-empty `a` and the zero-result error
message from the previous search is still displayed, because the short-query
path clears only the suggestions. -/
theorem C7_counterexample :
    (runEvents initState evsC7).nextId = 1 ∧
    (runEvents initState evsC7).widget.query = "a" ∧
    (runEvents initState evsC7).widget.error = noLocMsg :=
  ⟨rfl, rfl, rfl⟩

/-- Claim C7, amended: when the armed search fires for a query shorter than
2 characters, no provider request is dispatched and the widget only empties
the suggestions and hides the dropdown; `query`, `selected`, `loading` and in
particular any pre-existing `error` are left as they were, so the state need
not be Idle. -/
theorem C7_short_query_no_dispatch (s : SysState) (q : String)
    (hp : s.pending = some q) (hq : q.length < 2) :
    step s .timerFire =
      { s with
        widget := { s.widget with suggestions := [], showSuggestions := false },
        pending := none } := by
  simp [step, hp, searchStart, hq]

/-- A state displaying the zero-result message with a 1-character search
armed. -/
def errState : SysState :=
  { widget :=
      { query := "a", suggestions := [], loading := false, selectedLocation := none,
        showSuggestions := false, error := noLocMsg },
    pending := some "a", inflight := [], nextId := 1 }

/-- Claim C7, witness at the error state. -/
theorem C7_witness :
    errState.pending = some "a" ∧ ("a").length < 2 ∧
    (step errState .timerFire).widget.error = noLocMsg ∧
    (step errState .timerFire).nextId = 1 := by
  have h := C7_short_query_no_dispatch errState "a" rfl (by decide)
  refine ⟨rfl, by decide, ?_, ?_⟩
  · rw [h]
    rfl
  · rw [h]
    rfl

/-- Claim C8, confirmed: from any state, both the explicit clear action and
the query text becoming empty leave the widget with empty query, empty
candidates, no selection and no error — the Idle shape. -/
theorem C8_clear_resets_state (s : SysState) :
    ((step s .clear).widget.query = "" ∧ (step s .clear).widget.suggestions = [] ∧
      (step s .clear).widget.selectedLocation = none ∧ (step s .clear).widget.error = "") ∧
    ((step s (.input "")).widget.query = "" ∧ (step s (.input "")).widget.suggestions = [] ∧
      (step s (.input "")).widget.selectedLocation = none ∧
      (step s (.input "")).widget.error = "") := by
  refine ⟨⟨rfl, rfl, rfl, rfl⟩, ?_⟩
  by_cases h : ("" : String) = s.widget.query
  · simp [step, h, queryEffect]
  · have ht : jsTrim "" = "" := rfl
    simp [step, h, queryEffect, ht]

/-- Claim C9, confirmed: for a nonempty burst of calls in which every
successive call arrives strictly within 400 time-units of its predecessor,
the wrapped operation is invoked exactly once, 400 units after the last
call, with the last call's argument. -/
theorem C9_debounce_once {α : Type} (calls : List (Nat × α)) (h1 : calls ≠ [])
    (h2 : List.Chain' (fun p q => q.1 < p.1 + 400) calls) :
    debounceFires 400 calls = [((calls.getLast h1).1 + 400, (calls.getLast h1).2)] := by
  induction calls with
  | nil => exact absurd rfl h1
  | cons x rest ih =>
    cases rest with
    | nil => simp [debounceFires]
    | cons y more =>
      have hy : y.1 < x.1 + 400 := (List.chain'_cons.mp h2).1
      have htail := ih (by simp) (List.chain'_cons.mp h2).2
      obtain ⟨x1, x2⟩ := x
      obtain ⟨y1, y2⟩ := y
      simp only [debounceFires, hy, if_true]
      rw [htail]
      simp [List.getLast_cons]

/-- Claim C9, witness: three keystrokes at times 0, 100, 250 produce exactly
one invocation, at time 650, with the last argument. -/
theorem C9_witness :
    ([((0 : Nat), "s"), (100, "sp"), (250, "spr")] : List (Nat × String)) ≠ [] ∧
    List.Chain' (fun p q => q.1 < p.1 + 400)
      [((0 : Nat), "s"), (100, "sp"), (250, "spr")] ∧
    debounceFires 400 [((0 : Nat), "s"), (100, "sp"), (250, "spr")] = [(650, "spr")] := by
  refine ⟨by decide, by simp [List.chain'_cons], ?_⟩
  have h := C9_debounce_once [((0 : Nat), "s"), (100, "sp"), (250, "spr")] (by decide)
    (by simp [List.chain'_cons])
  rw [h]
  rfl

/-- Claim C10, confirmed: the India variant substitutes `India` whenever the
provider's country field is falsy, so its Locations always carry a truthy
country; the global variant passes the provider's country through
unchanged (absent stays absent). -/
theorem C10_country_default (item : RawCandidate) (index : Nat) :
    truthy (formatIN item index).address.country = true ∧
    (formatG item index).address.country = (addrOf item).country ∧
    ((addrOf item).country = none → (formatIN item index).address.country = some "India") := by
  refine ⟨?_, rfl, ?_⟩
  · by_cases h : truthy (addrOf item).country = true
    · simp [formatIN, h]
    · have h2 : truthy (addrOf item).country = false := by
        cases hb : truthy (addrOf item).country
        · rfl
        · exact absurd hb h
      have h3 : (formatIN item index).address.country = some "India" := by
        simp [formatIN, h2]
      rw [h3]
      rfl
  · intro h
    have h2 : truthy (addrOf item).country = false := by rw [h]; rfl
    simp [formatIN, h2]

/-- Claim C10, witness at a candidate whose provider record omits the
country. -/
theorem C10_witness :
    (addrOf badRaw).country = none ∧
    truthy (formatIN badRaw 0).address.country = true ∧
    (formatG badRaw 0).address.country = none ∧
    (formatIN badRaw 0).address.country = some "India" := by
  have hnone : (addrOf badRaw).country = none := rfl
  refine ⟨hnone, (C10_country_default badRaw 0).1, ?_, (C10_country_default badRaw 0).2.2 hnone⟩
  rw [(C10_country_default badRaw 0).2.1]
  exact hnone

/-- A `false`-from-not-`true` Bool helper. -/
theorem bool_eq_false {b : Bool} (h : ¬(b = true)) : b = false := by
  cases b
  · rfl
  · exact absurd rfl h

/-- Membership through one `insJS` placement. -/
theorem mem_insJS {α : Type} (lt : α → α → Bool) (x z : α) (l : List α) :
    z ∈ insJS lt x l ↔ z = x ∨ z ∈ l := by
  induction l with
  | nil => simp [insJS]
  | cons y ys ih =>
    by_cases h : lt x y = true
    · simp [insJS, h]
    · have h2 := bool_eq_false h
      simp [insJS, h2, ih]
      tauto

/-- Membership through the whole fold of `insJS` placements. -/
theorem mem_foldl_insJS {α : Type} (lt : α → α → Bool) (l : List α) (acc : List α) (z : α) :
    z ∈ l.foldl (fun a x => insJS lt x a) acc ↔ z ∈ acc ∨ z ∈ l := by
  induction l generalizing acc with
  | nil => simp
  | cons x xs ih =>
    rw [List.foldl_cons, ih]
    rw [mem_insJS]
    simp
    tauto

/-- `jsSort` permutes: membership is preserved. -/
theorem mem_jsSort {α : Type} (lt : α → α → Bool) (l : List α) (z : α) :
    z ∈ jsSort lt l ↔ z ∈ l := by
  simp [jsSort, mem_foldl_insJS]

/-- Sorting one more trailing element is one more placement. -/
theorem jsSort_append_one {α : Type} (lt : α → α → Bool) (l : List α) (x : α) :
    jsSort lt (l ++ [x]) = insJS lt x (jsSort lt l) := by
  simp [jsSort, List.foldl_append]

/-- A matching element is placed at the very front: the locality comparator
answers `-1` for it against everything. -/
theorem insJS_of_match (q : String) (x : Location) (h : isMatch q x = true)
    (acc : List Location) : insJS (ltLoc q) x acc = x :: acc := by
  cases acc with
  | nil => rfl
  | cons y ys =>
    have hlt : ltLoc q x y = true := by
      simp [ltLoc, cmpLocality, h]
    simp [insJS, hlt]

/-- A non-matching element is never placed inside a block of matching ones:
the comparator answers `1` against each of them. -/
theorem insJS_skip_matches (q : String) (x : Location) (hx : isMatch q x = false)
    (m n : List Location) (hm : ∀ y ∈ m, isMatch q y = true) :
    insJS (ltLoc q) x (m ++ n) = m ++ insJS (ltLoc q) x n := by
  induction m with
  | nil => simp
  | cons y m2 ih =>
    have hy : isMatch q y = true := hm y (by simp)
    have hlt : ltLoc q x y = false := by
      simp [ltLoc, cmpLocality, hx, hy]
    simp [insJS, hlt]
    exact ih (fun z hz => hm z (by simp [hz]))

/-- Among non-matching elements the locality comparator degenerates to the
importance comparator. -/
theorem insJS_nonmatch (q : String) (x : Location) (hx : isMatch q x = false)
    (n : List Location) (hn : ∀ y ∈ n, isMatch q y = false) :
    insJS (ltLoc q) x n = insJS ltImp x n := by
  induction n with
  | nil => rfl
  | cons y n2 ih =>
    have hy : isMatch q y = false := hn y (by simp)
    have hlt : ltLoc q x y = ltImp x y := by
      simp [ltLoc, ltImp, cmpLocality, hx, hy]
    by_cases hc : ltImp x y = true
    · simp [insJS, hlt, hc]
    · have hc2 := bool_eq_false hc
      simp [insJS, hlt, hc2]
      exact ih (fun z hz => hn z (by simp [hz]))

/-- The Springfield address used in the ranking counterexamples. -/
def locAddrSpring : LocationAddress :=
  { house_number := none, road := none, neighbourhood := none, suburb := none,
    city_district := none, city := some "Springfield", state_district := none,
    state := none, country := none, country_code := none, postcode := none }

/-- A matching candidate with importance 2. -/
def locHigh : Location :=
  { id := "H", display_name := "H", clean_display_name := "H", lat := some 1,
    lon := some 1, type := "location", cls := "", importance := 2,
    address := locAddrSpring }

/-- A matching candidate with importance 1. -/
def locLow : Location :=
  { locHigh with
    id := "L", display_name := "L", clean_display_name := "L", importance := 1 }

/-- Claim C4, counterexample: both candidates' city `Springfield` contains
the query `spring`, yet ranking puts the importance-1 candidate strictly
before the importance-2 one — within the matching partition the order is not
descending importance. -/
theorem C4_counterexample :
    isMatch "spring" locHigh = true ∧ isMatch "spring" locLow = true ∧
    locLow.importance < locHigh.importance ∧
    rankLocality "spring" [locHigh, locLow] = [locLow, locHigh] :=
  ⟨rfl, rfl, by decide, rfl⟩

/-- Claim C4, amended: the locality ranking places every matching candidate
before every non-matching one, sorts the non-matching partition by
descending importance (stably), but lays the matching partition out in
reverse input order — the comparator answers `-1` whenever its first
argument matches, so importance is never consulted there. -/
theorem C4_partition_structure (q : String) (xs : List Location) :
    rankLocality q xs =
      (xs.filter (fun z => isMatch q z)).reverse ++
        rankGlobal (xs.filter (fun z => !(isMatch q z))) := by
  induction xs using List.reverseRecOn with
  | nil => rfl
  | append_singleton l x ih =>
    have h1 : rankLocality q (l ++ [x]) = insJS (ltLoc q) x (rankLocality q l) :=
      jsSort_append_one (ltLoc q) l x
    rw [h1, ih]
    by_cases hx : isMatch q x = true
    · rw [insJS_of_match q x hx]
      simp [List.filter_append, hx]
    · have hx2 := bool_eq_false hx
      rw [insJS_skip_matches q x hx2 ((l.filter (fun z => isMatch q z)).reverse)
        (rankGlobal (l.filter (fun z => !(isMatch q z))))
        (by
          intro y hy
          rw [List.mem_reverse] at hy
          exact (List.mem_filter.mp hy).2)]
      rw [insJS_nonmatch q x hx2 (rankGlobal (l.filter (fun z => !(isMatch q z))))
        (by
          intro y hy
          have h3 := (mem_jsSort ltImp _ y).mp hy
          have h4 := (List.mem_filter.mp h3).2
          simpa using h4)]
      have h5 : rankGlobal ((l.filter (fun z => !(isMatch q z))) ++ [x]) =
          insJS ltImp x (rankGlobal (l.filter (fun z => !(isMatch q z)))) :=
        jsSort_append_one ltImp _ x
      rw [← h5]
      simp [List.filter_append, hx2]

/-- `ltImp` is false exactly when the first element's importance does not
exceed the second's. -/
theorem ltImp_eq_false_iff (x y : Location) :
    ltImp x y = false ↔ x.importance ≤ y.importance := by
  simp [ltImp, cmpImportance, sub_neg, not_lt]

/-- `ltImp` is true exactly when the first element's importance strictly
exceeds the second's. -/
theorem ltImp_eq_true_iff (x y : Location) :
    ltImp x y = true ↔ y.importance < x.importance := by
  simp [ltImp, cmpImportance, sub_neg]

/-- Orderedness invariant of the global sort: descending importance. -/
def ImpGe (a b : Location) : Prop := b.importance ≤ a.importance

/-- One `insJS` placement by importance preserves descending order. -/
theorem pairwise_insJS_imp (x : Location) (l : List Location)
    (h : l.Pairwise ImpGe) : (insJS ltImp x l).Pairwise ImpGe := by
  induction l with
  | nil => simp [insJS]
  | cons y ys ih =>
    rw [List.pairwise_cons] at h
    by_cases hc : ltImp x y = true
    · have hxy := (ltImp_eq_true_iff x y).mp hc
      have hh : insJS ltImp x (y :: ys) = x :: y :: ys := by simp [insJS, hc]
      rw [hh]
      refine List.Pairwise.cons ?_ (List.Pairwise.cons h.1 h.2)
      intro z hz
      rcases List.mem_cons.mp hz with hz1 | hz2
      · subst hz1
        exact le_of_lt hxy
      · exact le_trans (h.1 z hz2) (le_of_lt hxy)
    · have hc2 := bool_eq_false hc
      have hxy := (ltImp_eq_false_iff x y).mp hc2
      have hh : insJS ltImp x (y :: ys) = y :: insJS ltImp x ys := by simp [insJS, hc2]
      rw [hh]
      refine List.Pairwise.cons ?_ (ih h.2)
      intro z hz
      rcases (mem_insJS ltImp x z ys).mp hz with hz1 | hz2
      · subst hz1
        exact hxy
      · exact h.1 z hz2

/-- The fold of importance placements preserves descending order of the
accumulator. -/
theorem pairwise_foldl_imp (l : List Location) (acc : List Location)
    (h : acc.Pairwise ImpGe) :
    (l.foldl (fun a x => insJS ltImp x a) acc).Pairwise ImpGe := by
  induction l generalizing acc with
  | nil => exact h
  | cons x xs ih => exact ih (insJS ltImp x acc) (pairwise_insJS_imp x acc h)

/-- The global ranking is sorted by descending importance. -/
theorem rankGlobal_pairwise (l : List Location) : (rankGlobal l).Pairwise ImpGe :=
  pairwise_foldl_imp l [] List.Pairwise.nil

/-- An element that precedes nothing in the accumulator lands at its end. -/
theorem insJS_append_last (x : Location) (l : List Location)
    (h : ∀ y ∈ l, ltImp x y = false) : insJS ltImp x l = l ++ [x] := by
  induction l with
  | nil => rfl
  | cons y ys ih =>
    have hy := h y (by simp)
    simp [insJS, hy]
    exact ih (fun z hz => h z (by simp [hz]))

/-- Folding importance placements over an already descending-sorted input
reproduces it unchanged. -/
theorem foldl_sorted_id (l : List Location) (acc : List Location)
    (h : (acc ++ l).Pairwise ImpGe) :
    l.foldl (fun a x => insJS ltImp x a) acc = acc ++ l := by
  induction l generalizing acc with
  | nil => simp
  | cons x xs ih =>
    have hx : ∀ y ∈ acc, ltImp x y = false := by
      intro y hy
      refine (ltImp_eq_false_iff x y).mpr ?_
      exact (List.pairwise_append.mp h).2.2 y hy x (by simp)
    rw [List.foldl_cons, insJS_append_last x acc hx]
    have h2 : ((acc ++ [x]) ++ xs).Pairwise ImpGe := by
      have he : (acc ++ [x]) ++ xs = acc ++ (x :: xs) := by simp
      rw [he]
      exact h
    rw [ih (acc ++ [x]) h2]
    simp

/-- Claim C5, counterexample: ranking the two matching Springfield candidates
once gives `[locLow, locHigh]`; ranking the result again flips them back, so
`rank(rank(xs, q), q) ≠ rank(xs, q)` — the locality comparator is not a
consistent comparison and re-ranking reverses the matching block again. -/
theorem C5_counterexample :
    rankLocality "spring" (rankLocality "spring" [locHigh, locLow]) ≠
      rankLocality "spring" [locHigh, locLow] := by decide

/-- Claim C5, amended: ranking is idempotent in global mode (its comparator
is consistent and the sort is stable); in locality-biased mode it is not —
each application reverses the matching block. -/
theorem C5_global_idempotent (xs : List Location) :
    rankGlobal (rankGlobal xs) = rankGlobal xs := by
  have h := foldl_sorted_id (rankGlobal xs) [] (by simpa using rankGlobal_pairwise xs)
  simpa [rankGlobal, jsSort] using h

/-- With no `village` field, the source's city chain agrees with the spec's
first-non-empty choice. -/
theorem chosenCity_eq (a : RawAddress) (h : a.village = none) :
    chosenCityJS a = specChosenCity a := by
  unfold chosenCityJS specChosenCity jsOr
  rw [h]
  by_cases h1 : truthy a.city = true
  · simp [h1]
  · have h1f := bool_eq_false h1
    by_cases h2 : truthy a.town = true
    · simp [h1f, h2]
    · have h2f := bool_eq_false h2
      have htn : truthy (none : Option String) = false := rfl
      simp [h1f, h2f, htn]

/-- With no `village` field, the source's state-district guard agrees with
the spec's deduplication against the chosen city. -/
theorem sdPart_eq (a : RawAddress) (h : a.village = none) :
    sdPart a = specSdPart a := by
  unfold sdPart specSdPart
  cases hsd : a.state_district with
  | none => rfl
  | some s =>
    by_cases hs : s = ""
    · simp [hs]
    · have key : (jsOr a.city a.town ≠ some s) ↔ (specChosenCity a ≠ some s) := by
        unfold specChosenCity jsOr
        rw [h]
        by_cases h1 : truthy a.city = true
        · simp [h1]
        · have h1f := bool_eq_false h1
          by_cases h2 : truthy a.town = true
          · simp [h1f, h2]
          · have h2f := bool_eq_false h2
            have htn : truthy (none : Option String) = false := rfl
            cases ht : a.town with
            | none => simp [h1f, htn]
            | some t =>
              have hte : t = "" := by
                rw [ht] at h2f
                have h2g : decide (t ≠ "") = false := h2f
                exact not_not.mp (of_decide_eq_false h2g)
              subst hte
              have hs2 : "" ≠ s := fun heq => hs heq.symm
              have hsome : truthy (some "") = false := rfl
              simp [h1f, hsome, htn, hs2]
      simp [hs, key]

/-- With no `village` field, the global variant's part list is exactly the
spec's part list. -/
theorem labelParts_eq (a : RawAddress) (h : a.village = none) :
    labelPartsG a = specLabelParts a := by
  unfold labelPartsG specLabelParts
  rw [chosenCity_eq a h, sdPart_eq a h]

/-- The address of the claim's worked example: road `Main St`, city
`Springfield`, country `X`, nothing else. -/
def exAddr3 : RawAddress :=
  { house_number := none, road := some "Main St", neighbourhood := none,
    suburb := none, city_district := none, city := some "Springfield",
    town := none, village := none, state_district := none, state := none,
    country := some "X", country_code := none, postcode := none }

/-- Claim C3, counterexample: on the claim's own example the India variant
(`Autocomplete.js`, one of the claim's cited normalizers) produces
`Main St, Springfield` — it never appends the country (and renders the
postal code as `PIN: ...`), so the claimed label `Main St, Springfield, X`
is wrong for that variant. -/
theorem C3_counterexample :
    buildLabelIN exAddr3 "raw" = "Main St, Springfield" ∧
    buildLabelIN exAddr3 "raw" ≠ "Main St, Springfield, X" :=
  ⟨rfl, by decide⟩

/-- Claim C3, amended: the part_000 variant builds the label in the claimed
fixed order (house number, road, neighbourhood, suburb, city district, city,
deduplicated state district, state, country, postal code, joined by a
comma-space) — with its state-district guard comparing against the raw
city-or-town fields, which coincides with deduplication against the chosen
city whenever the candidate has no `village` field; the Autocomplete.js
variant deviates by omitting the country and prefixing the postal code with
`PIN: `.  On the worked example the part_000 variant does produce
`Main St, Springfield, X`. -/
theorem C3_global_label_refines_spec (a : RawAddress) (raw : String)
    (h : a.village = none) : buildLabelG a raw = specLabel a raw := by
  unfold buildLabelG specLabel
  rw [labelParts_eq a h]

/-- Claim C3, witness: the refinement theorem applied at the worked example,
which yields the claimed label in the part_000 variant. -/
theorem C3_witness :
    exAddr3.village = none ∧
    buildLabelG exAddr3 "raw" = specLabel exAddr3 "raw" ∧
    buildLabelG exAddr3 "raw" = "Main St, Springfield, X" :=
  ⟨rfl, C3_global_label_refines_spec exAddr3 "raw" rfl, rfl⟩
